import Mathlib

/-!
# Verification of the dataset-normalization ETL pipeline and serving API

Shallow embedding of `src/data_preparation/data_transformations.py`,
`src/data_preparation/etl_pipeline.py` + `data_utils.py` (loader loop),
`src/data_preparation/data_view.py` (denormalized view), and
`src/api/crud.py` / `src/api/main.py` (media query, prediction append).

Tabular data is modelled as lists of structures; a pandas `NaN` cell is
`Option.none`.  The pandas semantics relevant here are embedded explicitly:
`Series.str` operations skip `NaN`; `DataFrame.explode` keeps a `NaN`
scalar as a single row and turns an empty list into a single `NaN` row;
`drop_duplicates` keeps first occurrences and treats `NaN` as equal to
`NaN`; `merge(..., how='left')` matches `NaN` keys against `NaN` keys.
Numbers are embedded as `Int`/`Rat`.
-/

/-- A row of the titles source file (`raw_titles.csv`), columns per spec §6
plus the csv `index` column dropped by the movie/show splitter. -/
structure TitleRow where
  id : String
  type : String
  title : Option String
  release_year : Option Int
  age_certification : Option String
  runtime : Option Int
  seasons : Option Int
  genres : Option String
  production_countries : Option String
  imdb_id : Option String
  imdb_score : Option Rat
  imdb_votes : Option Int
deriving Repr, DecidableEq

/-- A row of the credits source file (`raw_credits.csv`). -/
structure CreditRow where
  id : String
  person_id : Int
  name : Option String
  role : String
  character : Option String
deriving Repr, DecidableEq

/-- `leadMatch p l` : the list `p` is an initial segment of `l`
(embeds Python `str.startswith` at character-list level). -/
def leadMatch [BEq α] : List α → List α → Bool
  | [], _ => true
  | _ :: _, [] => false
  | a :: as, b :: bs => a == b && leadMatch as bs

/-- Python `s.startswith(p)`. -/
def pyStartswith (s p : String) : Bool := leadMatch p.toList s.toList

/-- `.loc[id.str.startswith('tm'), 'movie_id'] = id` : the `movie_id`
column value routed from a source title id. -/
def routeMovie (t : String) : Option String :=
  if pyStartswith t "tm" then some t else none

/-- `.loc[id.str.startswith('ts'), 'show_id'] = id` : the `show_id`
column value routed from a source title id. -/
def routeShow (t : String) : Option String :=
  if pyStartswith t "ts" then some t else none

/-- The apostrophe character (ASCII 39). -/
def quoteChar : Char := Char.ofNat 39

/-- `str.replace(r'\[|\]|\'', '', regex=True)` : delete every literal
bracket and single-quote character. -/
def stripListSyntax (s : String) : String :=
  String.mk (s.toList.filter (fun c => !(c == '[' || c == ']' || c == quoteChar)))

/-- Scanner for Python `str.split(sep)` with a non-empty separator:
leftmost-first, non-merging.  `fuel` is an upper bound on the number of
steps (the input length suffices, since each step consumes at least one
character); structural recursion on it keeps the definition
kernel-reducible. -/
def splitGo (sep : List Char) : Nat → List Char → List Char → List (List Char)
  | 0, l, cur => [cur.reverse ++ l]
  | _ + 1, [], cur => [cur.reverse]
  | fuel + 1, c :: rest, cur =>
    if leadMatch sep (c :: rest) then
      cur.reverse :: splitGo sep fuel (rest.drop (sep.length - 1)) []
    else
      splitGo sep fuel rest (c :: cur)

/-- Python `s.split(sep)` for a non-empty separator (`''.split(sep)` is
`['']`; a lone separator yields two empty tokens). -/
def pySplit (s sep : String) : List String :=
  (splitGo sep.toList (s.toList.length + 1) s.toList []).map String.mk

/-- `str.replace` / `str.split` via the `.str` accessor skip `NaN` cells;
a present cell is bracket/quote-stripped then split on `sep`. -/
def tokenizeListField (sep : String) : Option String → Option (List String)
  | none => none
  | some s => some (pySplit (stripListSyntax s) sep)

/-- `DataFrame.explode` on one cell: a `NaN` scalar stays as one `NaN`
row, an empty list becomes one `NaN` row, a list yields one row per
element. -/
def explodeCell : Option (List String) → List (Option String)
  | none => [none]
  | some [] => [none]
  | some (t :: ts) => (t :: ts).map some

/-- `drop_duplicates()` keeping first occurrences (`NaN` equals `NaN`). -/
def dedupFirstSeen [DecidableEq α] (l : List α) : List α :=
  l.foldl (fun acc x => if x ∈ acc then acc else acc ++ [x]) []

/-- First index of `a` in `l`, used to model the
`merge(..., on=key, how='left')` against a deduplicated key column. -/
def idxOfD [DecidableEq α] (a : α) : List α → Option Nat
  | [] => none
  | b :: t => if a = b then some 0 else (idxOfD a t).map (· + 1)

/-- The surrogate id the left-merge against the deduplicated, 1-based
indexed entity table assigns to a token (`none` when unmatched). -/
def assignId [DecidableEq α] (entities : List α) (tok : α) : Option Nat :=
  (idxOfD tok entities).map (· + 1)

/-! ## Movie/show splitter (`transform_movies` / `transform_shows`)

The splitter is embedded in an `Except` so that the presence/absence of
an abort path is part of the model: the Python bodies contain no raise
for unexpected `type` tags, so every run returns `Except.ok`. -/

/-- A row of the `movies` table produced by `transform_movies`. -/
structure MovieRow where
  index : Nat
  movie_id : String
  title : Option String
  release_year : Option Int
  age_certification : Option String
  runtime : Option Int
deriving Repr, DecidableEq

/-- A row of the `shows` table produced by `transform_shows`. -/
structure ShowRow where
  index : Nat
  show_id : String
  title : Option String
  release_year : Option Int
  age_certification : Option String
  runtime : Option Int
  seasons : Option Int
deriving Repr, DecidableEq

/-- `transform_movies`: keep rows with `type == "MOVIE"`, renumber
1-based, rename `id` to `movie_id`, drop the listed columns. -/
def transform_movies (dataset : List TitleRow) : Except String (List MovieRow) :=
  Except.ok (((dataset.filter (fun r => r.type == "MOVIE")).enum).map
    (fun p => { index := p.1 + 1, movie_id := p.2.id, title := p.2.title,
                release_year := p.2.release_year,
                age_certification := p.2.age_certification,
                runtime := p.2.runtime }))

/-- `transform_shows`: keep rows with `type == "SHOW"`, renumber 1-based,
rename `id` to `show_id`, drop the listed columns (keeping `seasons`). -/
def transform_shows (dataset : List TitleRow) : Except String (List ShowRow) :=
  Except.ok (((dataset.filter (fun r => r.type == "SHOW")).enum).map
    (fun p => { index := p.1 + 1, show_id := p.2.id, title := p.2.title,
                release_year := p.2.release_year,
                age_certification := p.2.age_certification,
                runtime := p.2.runtime, seasons := p.2.seasons }))

/-! ## Genre / country token pipelines (`transform_genres`,
`transform_production_countries`) -/

/-- A row of the `genres` entity table (`genre_id` is the 1-based index). -/
structure GenreEntity where
  genre_id : Nat
  genre : Option String
deriving Repr, DecidableEq

/-- A row of the `genres_bridge` table. -/
structure GenreBridgeRow where
  genre_id : Option Nat
  movie_id : Option String
  show_id : Option String
deriving Repr, DecidableEq

/-- The exploded token list of one title's `genres` cell. -/
def genreTokens (r : TitleRow) : List (Option String) :=
  explodeCell (tokenizeListField ", " r.genres)

/-- `genres_exploded` after `explode`: one `(id, token)` row per token. -/
def genresExploded (dataset : List TitleRow) : List (String × Option String) :=
  dataset.flatMap (fun r => (genreTokens r).map (fun t => (r.id, t)))

/-- The deduplicated token column of the `genres` entity table. -/
def genreEntityTokens (dataset : List TitleRow) : List (Option String) :=
  dedupFirstSeen ((genresExploded dataset).map Prod.snd)

/-- The `genres` entity table: deduplicated tokens, 1-based `genre_id`. -/
def genresEntities (dataset : List TitleRow) : List GenreEntity :=
  (genreEntityTokens dataset).enum.map (fun p => { genre_id := p.1 + 1, genre := p.2 })

/-- The `genres_bridge` table: one row per exploded `(id, token)` pair,
`genre_id` from the left-merge, title id routed by prefix then dropped. -/
def genresBridge (dataset : List TitleRow) : List GenreBridgeRow :=
  (genresExploded dataset).map (fun p =>
    { genre_id := assignId (genreEntityTokens dataset) p.2,
      movie_id := routeMovie p.1, show_id := routeShow p.1 })

/-- `transform_genres` returns the `(genres, genres_bridge)` pair. -/
def transform_genres (dataset : List TitleRow) :
    List GenreEntity × List GenreBridgeRow :=
  (genresEntities dataset, genresBridge dataset)

/-- A row of the `production_countries` entity table. -/
structure CountryEntity where
  country_id : Nat
  country : Option String
deriving Repr, DecidableEq

/-- A row of the `production_countries_bridge` table. -/
structure CountryBridgeRow where
  country_id : Option Nat
  movie_id : Option String
  show_id : Option String
deriving Repr, DecidableEq

/-- The exploded token list of one title's `production_countries` cell. -/
def countryTokens (r : TitleRow) : List (Option String) :=
  explodeCell (tokenizeListField ", " r.production_countries)

/-- `production_countries_exploded` after `explode`. -/
def countriesExploded (dataset : List TitleRow) : List (String × Option String) :=
  dataset.flatMap (fun r => (countryTokens r).map (fun t => (r.id, t)))

/-- The deduplicated token column of the `production_countries` table. -/
def countryEntityTokens (dataset : List TitleRow) : List (Option String) :=
  dedupFirstSeen ((countriesExploded dataset).map Prod.snd)

/-- The `production_countries` entity table. -/
def countriesEntities (dataset : List TitleRow) : List CountryEntity :=
  (countryEntityTokens dataset).enum.map (fun p => { country_id := p.1 + 1, country := p.2 })

/-- The `production_countries_bridge` table. -/
def countriesBridge (dataset : List TitleRow) : List CountryBridgeRow :=
  (countriesExploded dataset).map (fun p =>
    { country_id := assignId (countryEntityTokens dataset) p.2,
      movie_id := routeMovie p.1, show_id := routeShow p.1 })

/-- `transform_production_countries` returns the entity/bridge pair. -/
def transform_production_countries (dataset : List TitleRow) :
    List CountryEntity × List CountryBridgeRow :=
  (countriesEntities dataset, countriesBridge dataset)

/-! ## Person extractors (`transform_actors` / `transform_directors`) -/

/-- A row of the `actors` entity table (`actor_id` is the source
`person_id`, carried through unchanged). -/
structure ActorEntity where
  actor_id : Int
  actor : Option String
deriving Repr, DecidableEq

/-- A row of the `actors_bridge` table. -/
structure ActorBridgeRow where
  actor_id : Int
  movie_id : Option String
  show_id : Option String
deriving Repr, DecidableEq

/-- `transform_actors` bridge: one row per `role == "ACTOR"` credit,
title id routed by prefix then dropped. -/
def actorsBridge (dataset : List CreditRow) : List ActorBridgeRow :=
  (dataset.filter (fun r => r.role == "ACTOR")).map (fun r =>
    { actor_id := r.person_id, movie_id := routeMovie r.id, show_id := routeShow r.id })

/-- `transform_actors` entities: `(person_id, name)` pairs of actor
credits, deduplicated keeping first occurrences. -/
def actorsEntities (dataset : List CreditRow) : List ActorEntity :=
  (dedupFirstSeen ((dataset.filter (fun r => r.role == "ACTOR")).map
      (fun r => (r.person_id, r.name)))).map
    (fun p => { actor_id := p.1, actor := p.2 })

/-- `transform_actors` returns the `(actors, actors_bridge)` pair. -/
def transform_actors (dataset : List CreditRow) :
    List ActorEntity × List ActorBridgeRow :=
  (actorsEntities dataset, actorsBridge dataset)

/-- A row of the `directors` entity table. -/
structure DirectorEntity where
  director_id : Int
  director : Option String
deriving Repr, DecidableEq

/-- A row of the `directors_bridge` table. -/
structure DirectorBridgeRow where
  director_id : Int
  movie_id : Option String
  show_id : Option String
deriving Repr, DecidableEq

/-- `transform_directors` bridge: one row per `role == "DIRECTOR"` credit. -/
def directorsBridge (dataset : List CreditRow) : List DirectorBridgeRow :=
  (dataset.filter (fun r => r.role == "DIRECTOR")).map (fun r =>
    { director_id := r.person_id, movie_id := routeMovie r.id, show_id := routeShow r.id })

/-- `transform_directors` entities. -/
def directorsEntities (dataset : List CreditRow) : List DirectorEntity :=
  (dedupFirstSeen ((dataset.filter (fun r => r.role == "DIRECTOR")).map
      (fun r => (r.person_id, r.name)))).map
    (fun p => { director_id := p.1, director := p.2 })

/-- `transform_directors` returns the `(directors, directors_bridge)` pair. -/
def transform_directors (dataset : List CreditRow) :
    List DirectorEntity × List DirectorBridgeRow :=
  (directorsEntities dataset, directorsBridge dataset)

/-! ## Character extractor (`transform_characters`) -/

/-- A row of the `characters` entity table. -/
structure CharacterEntity where
  character_id : Nat
  character : Option String
deriving Repr, DecidableEq

/-- A row of the `characters_bridge` table. -/
structure CharacterBridgeRow where
  actor_id : Int
  character_id : Option Nat
  movie_id : Option String
  show_id : Option String
deriving Repr, DecidableEq

/-- The exploded token list of one credit's `character` cell: bracket and
quote characters stripped, then split on the `" / "` separator. -/
def charTokens (r : CreditRow) : List (Option String) :=
  explodeCell (tokenizeListField " / " r.character)

/-- `characters_exploded`: one `(id, person_id, token)` row per character
token of each `role == "ACTOR"` credit. -/
def charsExploded (dataset : List CreditRow) : List (String × Int × Option String) :=
  (dataset.filter (fun r => r.role == "ACTOR")).flatMap
    (fun r => (charTokens r).map (fun t => (r.id, r.person_id, t)))

/-- The deduplicated token column of the `characters` entity table. -/
def characterEntityTokens (dataset : List CreditRow) : List (Option String) :=
  dedupFirstSeen ((charsExploded dataset).map (fun p => p.2.2))

/-- The `characters` entity table. -/
def charactersEntities (dataset : List CreditRow) : List CharacterEntity :=
  (characterEntityTokens dataset).enum.map
    (fun p => { character_id := p.1 + 1, character := p.2 })

/-- The `characters_bridge` table. -/
def charactersBridge (dataset : List CreditRow) : List CharacterBridgeRow :=
  (charsExploded dataset).map (fun p =>
    { actor_id := p.2.1,
      character_id := assignId (characterEntityTokens dataset) p.2.2,
      movie_id := routeMovie p.1, show_id := routeShow p.1 })

/-- `transform_characters` returns the `(characters, characters_bridge)` pair. -/
def transform_characters (dataset : List CreditRow) :
    List CharacterEntity × List CharacterBridgeRow :=
  (charactersEntities dataset, charactersBridge dataset)

/-! ## Rating extractor (`transform_imdb_info`) -/

/-- A row of the `imdb_info` table. -/
structure ImdbInfoRow where
  imdb_id : Option String
  imdb_score : Option Rat
  imdb_votes : Option Int
  movie_id : Option String
  show_id : Option String
deriving Repr, DecidableEq

/-- `transform_imdb_info`: select the id and rating columns of every
title row, route the id by prefix, then drop it. -/
def transform_imdb_info (dataset : List TitleRow) : List ImdbInfoRow :=
  dataset.map (fun r =>
    { imdb_id := r.imdb_id, imdb_score := r.imdb_score, imdb_votes := r.imdb_votes,
      movie_id := routeMovie r.id, show_id := routeShow r.id })

/-! ## Loader loop (`etl_pipeline.py` main loop + `data_utils.data_to_sql`)

`data_to_sql` performs one `to_sql` append which may raise; the loop body
wraps the call in `try ... except exc.SQLAlchemyError`, logging an info
line on success and an error line (with the table name and error detail)
on a caught `SQLAlchemyError`.  Any other exception escapes the loop to
the outer handler, so no further table is attempted. -/

/-- An exception raised by a table insert. -/
inductive PyExc where
  | sqlAlchemyError (msg : String)
  | otherError (msg : String)
deriving Repr, DecidableEq

/-- A line written by the loader loop's logger. -/
inductive LogEntry where
  | info (table : String)
  | errorEntry (table : String) (msg : String)
deriving Repr, DecidableEq

/-- The table a log entry is about. -/
def LogEntry.table : LogEntry → String
  | .info t => t
  | .errorEntry t _ => t

/-- The loader loop over `data_table_pairs`: insert each table in order;
a `SQLAlchemyError` is caught and logged and the loop continues; any
other exception aborts the loop (no log entries for the remaining
tables). -/
def loaderLoop (insert : String → Except PyExc Unit) : List String → List LogEntry
  | [] => []
  | t :: rest =>
    match insert t with
    | Except.ok _ => LogEntry.info t :: loaderLoop insert rest
    | Except.error (PyExc.sqlAlchemyError m) =>
        LogEntry.errorEntry t m :: loaderLoop insert rest
    | Except.error (PyExc.otherError _) => []

/-- The fixed table sequence of `data_table_pairs` in `etl_pipeline.py`. -/
def dataTablePairs : List String :=
  ["movies", "shows", "genres", "genres_bridge", "production_countries",
   "production_countries_bridge", "actors", "actors_bridge", "directors",
   "directors_bridge", "characters", "characters_bridge", "imdb_info"]

/-! ## Denormalized view (`data_view.py`)

The `CREATE VIEW movies_and_shows_view` statement is a `UNION ALL` of a
movie-side and a show-side chain of `LEFT JOIN`s.  A chain of left joins
whose conditions only reference earlier tables has nested-loop
semantics: for each accumulated row, the next table contributes one row
per match, or a single all-`NULL` row when there is no match. -/

/-- A row of `movies_and_shows_view` (also the row type the media query
of `src/api/crud.py` filters). -/
structure MediaViewRow where
  media_type : String
  movie_id : Option String
  show_id : Option String
  title : Option String
  release_year : Option Int
  age_certification : Option String
  runtime : Option Int
  seasons : Option Int
  genre : Option String
  country : Option String
  director : Option String
  actor : Option String
  character : Option String
  imdb_score : Option Rat
  imdb_votes : Option Int
deriving Repr, DecidableEq

/-- The loaded base tables the view is defined over. -/
structure ViewDB where
  movies : List MovieRow
  shows : List ShowRow
  genres : List GenreEntity
  genres_bridge : List GenreBridgeRow
  production_countries : List CountryEntity
  production_countries_bridge : List CountryBridgeRow
  actors : List ActorEntity
  actors_bridge : List ActorBridgeRow
  directors : List DirectorEntity
  directors_bridge : List DirectorBridgeRow
  characters : List CharacterEntity
  characters_bridge : List CharacterBridgeRow
  imdb_info : List ImdbInfoRow
deriving Repr

/-- One `LEFT JOIN` step for a fixed left row: every match, or a single
`NULL` row when there is no match. -/
def expandMatches (l : List α) : List (Option α) :=
  match l with
  | [] => [none]
  | x :: xs => (x :: xs).map some

/-- SQL equality `col = k` on a nullable `Nat` column reached through a
possibly-`NULL` joined row (`NULL` compares unknown, hence no match). -/
def joinKeyNat (k : Option (Option Nat)) (g : Nat) : Bool :=
  match k with
  | some (some v) => v == g
  | _ => false

/-- SQL equality on an `Int` column reached through a possibly-`NULL`
joined row. -/
def joinKeyInt (k : Option Int) (g : Int) : Bool :=
  match k with
  | some v => v == g
  | none => false

/-- The movie-side `SELECT` of the view for one `movies` row: the left
join chain through every bridge to its entity, plus the rating row. -/
def movieViewRows (db : ViewDB) (m : MovieRow) : List MediaViewRow :=
  (expandMatches (db.genres_bridge.filter (fun gb => gb.movie_id == some m.movie_id))).flatMap fun gb =>
  (expandMatches (db.genres.filter (fun g => joinKeyNat (gb.map GenreBridgeRow.genre_id) g.genre_id))).flatMap fun g =>
  (expandMatches (db.production_countries_bridge.filter (fun pcb => pcb.movie_id == some m.movie_id))).flatMap fun pcb =>
  (expandMatches (db.production_countries.filter (fun pc => joinKeyNat (pcb.map CountryBridgeRow.country_id) pc.country_id))).flatMap fun pc =>
  (expandMatches (db.directors_bridge.filter (fun dbr => dbr.movie_id == some m.movie_id))).flatMap fun dbr =>
  (expandMatches (db.directors.filter (fun d => joinKeyInt (dbr.map DirectorBridgeRow.director_id) d.director_id))).flatMap fun d =>
  (expandMatches (db.actors_bridge.filter (fun ab => ab.movie_id == some m.movie_id))).flatMap fun ab =>
  (expandMatches (db.actors.filter (fun a => joinKeyInt (ab.map ActorBridgeRow.actor_id) a.actor_id))).flatMap fun a =>
  (expandMatches (db.characters_bridge.filter (fun cb =>
      cb.movie_id == some m.movie_id && joinKeyInt (ab.map ActorBridgeRow.actor_id) cb.actor_id))).flatMap fun cb =>
  (expandMatches (db.characters.filter (fun c => joinKeyNat (cb.map CharacterBridgeRow.character_id) c.character_id))).flatMap fun c =>
  (expandMatches (db.imdb_info.filter (fun i => i.movie_id == some m.movie_id))).map fun i =>
    { media_type := "movie", movie_id := some m.movie_id, show_id := none,
      title := m.title, release_year := m.release_year,
      age_certification := m.age_certification, runtime := m.runtime,
      seasons := none,
      genre := g.bind GenreEntity.genre,
      country := pc.bind CountryEntity.country,
      director := d.bind DirectorEntity.director,
      actor := a.bind ActorEntity.actor,
      character := c.bind CharacterEntity.character,
      imdb_score := i.bind ImdbInfoRow.imdb_score,
      imdb_votes := i.bind ImdbInfoRow.imdb_votes }

/-- The show-side `SELECT` of the view for one `shows` row. -/
def showViewRows (db : ViewDB) (s : ShowRow) : List MediaViewRow :=
  (expandMatches (db.genres_bridge.filter (fun gb => gb.show_id == some s.show_id))).flatMap fun gb =>
  (expandMatches (db.genres.filter (fun g => joinKeyNat (gb.map GenreBridgeRow.genre_id) g.genre_id))).flatMap fun g =>
  (expandMatches (db.production_countries_bridge.filter (fun pcb => pcb.show_id == some s.show_id))).flatMap fun pcb =>
  (expandMatches (db.production_countries.filter (fun pc => joinKeyNat (pcb.map CountryBridgeRow.country_id) pc.country_id))).flatMap fun pc =>
  (expandMatches (db.directors_bridge.filter (fun dbr => dbr.show_id == some s.show_id))).flatMap fun dbr =>
  (expandMatches (db.directors.filter (fun d => joinKeyInt (dbr.map DirectorBridgeRow.director_id) d.director_id))).flatMap fun d =>
  (expandMatches (db.actors_bridge.filter (fun ab => ab.show_id == some s.show_id))).flatMap fun ab =>
  (expandMatches (db.actors.filter (fun a => joinKeyInt (ab.map ActorBridgeRow.actor_id) a.actor_id))).flatMap fun a =>
  (expandMatches (db.characters_bridge.filter (fun cb =>
      cb.show_id == some s.show_id && joinKeyInt (ab.map ActorBridgeRow.actor_id) cb.actor_id))).flatMap fun cb =>
  (expandMatches (db.characters.filter (fun c => joinKeyNat (cb.map CharacterBridgeRow.character_id) c.character_id))).flatMap fun c =>
  (expandMatches (db.imdb_info.filter (fun i => i.show_id == some s.show_id))).map fun i =>
    { media_type := "show", movie_id := none, show_id := some s.show_id,
      title := s.title, release_year := s.release_year,
      age_certification := s.age_certification, runtime := s.runtime,
      seasons := s.seasons,
      genre := g.bind GenreEntity.genre,
      country := pc.bind CountryEntity.country,
      director := d.bind DirectorEntity.director,
      actor := a.bind ActorEntity.actor,
      character := c.bind CharacterEntity.character,
      imdb_score := i.bind ImdbInfoRow.imdb_score,
      imdb_votes := i.bind ImdbInfoRow.imdb_votes }

/-- `movies_and_shows_view`: movie side `UNION ALL` show side. -/
def moviesAndShowsView (db : ViewDB) : List MediaViewRow :=
  db.movies.flatMap (movieViewRows db) ++ db.shows.flatMap (showViewRows db)

/-! ## Media query (`crud.get_media`) -/

/-- Case-insensitive substring containment: `column ILIKE '%pat%'` on a
nullable text column (`NULL` never matches). -/
def ilikeContains (column : Option String) (pat : String) : Bool :=
  match column with
  | none => false
  | some s =>
    let hay := s.toLower.toList
    let needle := pat.toLower.toList
    (List.range (hay.length + 1)).any (fun k => leadMatch needle (hay.drop k))

/-- SQL `=` filter on a nullable column. -/
def optEqFilter [BEq α] (column : Option α) (v : α) : Bool :=
  match column with
  | none => false
  | some x => x == v

/-- SQL `>` filter on a nullable `Rat` column (`NULL > v` is unknown,
hence filtered out). -/
def optGtRat (column : Option Rat) (v : Rat) : Bool :=
  match column with
  | none => false
  | some x => v < x

/-- SQL `>` filter on a nullable `Int` column. -/
def optGtInt (column : Option Int) (v : Int) : Bool :=
  match column with
  | none => false
  | some x => v < x

/-- The optional query parameters of `crud.get_media`. -/
structure MediaParams where
  media_type : Option String := none
  title : Option String := none
  release_year : Option Int := none
  age_certification : Option String := none
  genre : Option String := none
  country : Option String := none
  director : Option String := none
  actor : Option String := none
  character : Option String := none
  imdb_score : Option Rat := none
  imdb_votes : Option Int := none
  skip : Nat := 0
  limit : Nat := 100

/-- Apply one optional filter: `if param is not None: query.filter(...)`. -/
def applyOptFilter (p : Option β) (f : β → MediaViewRow → Bool)
    (rows : List MediaViewRow) : List MediaViewRow :=
  match p with
  | none => rows
  | some v => rows.filter (f v)

/-- `crud.get_media`: the chain of optional filters over the view,
then `offset(skip).limit(limit)`. -/
def get_media (db : List MediaViewRow) (p : MediaParams) : List MediaViewRow :=
  let q := db
  let q := applyOptFilter p.media_type (fun v r => ilikeContains (some r.media_type) v) q
  let q := applyOptFilter p.title (fun v r => ilikeContains r.title v) q
  let q := applyOptFilter p.release_year (fun v r => optEqFilter r.release_year v) q
  let q := applyOptFilter p.age_certification (fun v r => optEqFilter r.age_certification v) q
  let q := applyOptFilter p.genre (fun v r => ilikeContains r.genre v) q
  let q := applyOptFilter p.country (fun v r => ilikeContains r.country v) q
  let q := applyOptFilter p.director (fun v r => ilikeContains r.director v) q
  let q := applyOptFilter p.actor (fun v r => ilikeContains r.actor v) q
  let q := applyOptFilter p.character (fun v r => ilikeContains r.character v) q
  let q := applyOptFilter p.imdb_score (fun v r => optGtRat r.imdb_score v) q
  let q := applyOptFilter p.imdb_votes (fun v r => optGtInt r.imdb_votes v) q
  (q.drop p.skip).take p.limit

/-! ## Prediction append (`main.submit_prediction`, `database_models.Predictions`)

The endpoint builds a `Predictions` ORM object from the request body
(`user_id`, `prediction_value`); the model constructor stamps the
current server time, the database assigns the auto-increment `index` on
commit, and the refreshed object is returned.  FastAPI then serializes
the return value through the declared `response_model=schemas.PredictionAdd`,
which has only the `user_id` and `prediction_value` fields. -/

/-- The request body of `POST /submit_prediction/`
(`schemas.PredictionAdd`), which is also the declared response model. -/
structure PredictionAdd where
  user_id : String
  prediction_value : Rat
deriving Repr, DecidableEq

/-- A stored row of the `predictions` table. -/
structure PredictionRecord where
  index : Nat
  timestamp : Int
  user_id : String
  prediction_value : Rat
deriving Repr, DecidableEq

/-- Server-side state the endpoint interacts with: the stored rows, the
next auto-increment id, and the server clock. -/
structure ApiState where
  predictions : List PredictionRecord
  nextIndex : Nat
  clock : Int
deriving Repr, DecidableEq

/-- `submit_prediction` up to the `db.refresh`: construct the record
(stamping the server clock), insert it, auto-assign the sequential id;
returns the new state and the refreshed stored record. -/
def submit_prediction (st : ApiState) (p : PredictionAdd) :
    ApiState × PredictionRecord :=
  let stored : PredictionRecord :=
    { index := st.nextIndex, timestamp := st.clock,
      user_id := p.user_id, prediction_value := p.prediction_value }
  ({ predictions := st.predictions ++ [stored],
     nextIndex := st.nextIndex + 1, clock := st.clock }, stored)

/-- FastAPI serialization of the endpoint's return value through
`response_model=schemas.PredictionAdd`. -/
def renderPredictionAdd (r : PredictionRecord) : PredictionAdd :=
  { user_id := r.user_id, prediction_value := r.prediction_value }

/-- The response body the caller of `POST /submit_prediction/` receives. -/
def submit_prediction_response (st : ApiState) (p : PredictionAdd) : PredictionAdd :=
  renderPredictionAdd (submit_prediction st p).2

/-- The row builder applied to each exploded `(id, token)` pair by the
`genres_bridge` construction (the merge assignment plus prefix routing),
as a named function of the whole input dataset. -/
def mkGenreBridgeRowOf (dataset : List TitleRow) (p : String × Option String) :
    GenreBridgeRow :=
  { genre_id := assignId (genreEntityTokens dataset) p.2,
    movie_id := routeMovie p.1, show_id := routeShow p.1 }

/-- The row builder of the `production_countries_bridge` construction. -/
def mkCountryBridgeRowOf (dataset : List TitleRow) (p : String × Option String) :
    CountryBridgeRow :=
  { country_id := assignId (countryEntityTokens dataset) p.2,
    movie_id := routeMovie p.1, show_id := routeShow p.1 }

/-- The row builder of the `characters_bridge` construction, applied to
each exploded `(id, person_id, token)` triple. -/
def mkCharacterBridgeRowOf (dataset : List CreditRow)
    (p : String × Int × Option String) : CharacterBridgeRow :=
  { actor_id := p.2.1,
    character_id := assignId (characterEntityTokens dataset) p.2.2,
    movie_id := routeMovie p.1, show_id := routeShow p.1 }

/-! ## Concrete fixtures used by counterexamples and witnesses -/

/-- A titles row whose `type` discriminator is neither tag. -/
def c1TitleBad : TitleRow :=
  { id := "xx9", type := "OTHER", title := some "Odd", release_year := some 1999,
    age_certification := none, runtime := some 10, seasons := none,
    genres := none, production_countries := none,
    imdb_id := none, imdb_score := none, imdb_votes := none }

/-- A movie row whose `genres` cell is `NaN`. -/
def c2TitleNullGenres : TitleRow :=
  { id := "tm1", type := "MOVIE", title := some "A", release_year := some 2000,
    age_certification := none, runtime := some 90, seasons := none,
    genres := none, production_countries := none,
    imdb_id := none, imdb_score := none, imdb_votes := none }

/-- A titles row with no rating data at all. -/
def c3TitleNoRating : TitleRow :=
  { id := "tm2", type := "MOVIE", title := some "B", release_year := some 2001,
    age_certification := none, runtime := some 95, seasons := none,
    genres := none, production_countries := none,
    imdb_id := none, imdb_score := none, imdb_votes := none }

/-- A titles row whose id starts with neither `tm` nor `ts`. -/
def c4TitleUnrouted : TitleRow :=
  { id := "ab1", type := "MOVIE", title := some "C", release_year := some 2002,
    age_certification := none, runtime := some 80, seasons := none,
    genres := some "['Drama']", production_countries := none,
    imdb_id := none, imdb_score := none, imdb_votes := none }

/-- An insert function that raises a constraint (`SQLAlchemyError`)
failure on the `genres` table and succeeds elsewhere. -/
def c5Insert (t : String) : Except PyExc Unit :=
  if t == "genres" then Except.error (PyExc.sqlAlchemyError "UNIQUE constraint failed")
  else Except.ok ()

/-- A titles row with a two-genre list, for the round-trip witness. -/
def c6Title : TitleRow :=
  { id := "ts3", type := "SHOW", title := some "D", release_year := some 2003,
    age_certification := none, runtime := some 40, seasons := some 2,
    genres := some "['Drama', 'Comedy']", production_countries := some "['US']",
    imdb_id := some "tt3", imdb_score := some 8, imdb_votes := some 1000 }

/-- An actor credit with a ` / `-separated two-character field. -/
def c8Credit : CreditRow :=
  { id := "tm10", person_id := 7, name := some "Robert Downey Jr.",
    role := "ACTOR", character := some "Tony Stark / Iron Man" }

/-- Base api states differing in next id and clock, and a request body. -/
def c9StateA : ApiState := { predictions := [], nextIndex := 1, clock := 100 }

/-- A second api state with a different next id and clock. -/
def c9StateB : ApiState := { predictions := [], nextIndex := 5, clock := 777 }

/-- A concrete prediction request body. -/
def c9Request : PredictionAdd := { user_id := "u1", prediction_value := 3 }

/-- A view row with known rating values. -/
def c10Row : MediaViewRow :=
  { media_type := "movie", movie_id := some "tm1", show_id := none,
    title := some "A", release_year := some 2000, age_certification := none,
    runtime := some 90, seasons := none, genre := some "Drama",
    country := none, director := none, actor := none, character := none,
    imdb_score := some 8, imdb_votes := some 100 }

/-- Media query parameters with both numeric thresholds set. -/
def c10Params : MediaParams := { imdb_score := some 7, imdb_votes := some 50 }

/-- The movie row of the multiplicity witness database. -/
def c7Movie : MovieRow :=
  { index := 1, movie_id := "tm1", title := some "A", release_year := some 2000,
    age_certification := none, runtime := some 90 }

/-- A loaded database where movie `tm1` has 3 genre links, 2 actor
links, one character link per actor, one rating row, and no country or
director links. -/
def c7DB : ViewDB :=
  { movies := [c7Movie],
    shows := [],
    genres := [⟨1, some "Drama"⟩, ⟨2, some "Comedy"⟩, ⟨3, some "Action"⟩],
    genres_bridge :=
      [⟨some 1, some "tm1", none⟩, ⟨some 2, some "tm1", none⟩, ⟨some 3, some "tm1", none⟩],
    production_countries := [],
    production_countries_bridge := [],
    actors := [⟨7, some "RDJ"⟩, ⟨8, some "CE"⟩],
    actors_bridge := [⟨7, some "tm1", none⟩, ⟨8, some "tm1", none⟩],
    directors := [],
    directors_bridge := [],
    characters := [⟨1, some "Tony Stark"⟩, ⟨2, some "Steve Rogers"⟩],
    characters_bridge :=
      [⟨7, some 1, some "tm1", none⟩, ⟨8, some 2, some "tm1", none⟩],
    imdb_info := [⟨some "tt1", some 8, some 100, some "tm1", none⟩] }

/-- A show row whose `production_countries` cell is the empty list
literal `"[]"`. -/
def c2TitleEmptyCountries : TitleRow :=
  { id := "ts8", type := "SHOW", title := some "E", release_year := some 2004,
    age_certification := none, runtime := some 30, seasons := some 1,
    genres := some "['Drama']", production_countries := some "[]",
    imdb_id := none, imdb_score := none, imdb_votes := none }

/-- An actor credit whose `character` cell is `NaN`. -/
def c2CreditNullChar : CreditRow :=
  { id := "tm5", person_id := 9, name := some "Sam Lee",
    role := "ACTOR", character := none }

/-- An actor credit used by the round-trip witness. -/
def c6Credit : CreditRow :=
  { id := "ts3", person_id := 42, name := some "Maya Hart",
    role := "ACTOR", character := some "Alpha / Beta" }

/-! ## Helper lemmas -/

theorem filter_eq_of_forall {α : Type} (l : List α) (q : α → Bool) (v : Bool)
    (h : ∀ b ∈ l, q b = v) : l.filter q = if v then l else [] := by
  induction l with
  | nil => cases v <;> simp
  | cons x xs ih =>
    have hx := h x (List.mem_cons_self x xs)
    have ht := ih (fun b hb => h b (List.mem_cons_of_mem x hb))
    cases v <;> simp_all [List.filter_cons]

theorem filter_flatMap_blocks {α β : Type} (ds : List α) (g : α → List β)
    (q : β → Bool) (c : α → Bool) (h : ∀ a ∈ ds, ∀ b ∈ g a, q b = c a) :
    (ds.flatMap g).filter q = (ds.filter c).flatMap g := by
  induction ds with
  | nil => simp
  | cons x xs ih =>
    have hx : (g x).filter q = if c x then g x else [] :=
      filter_eq_of_forall _ _ _ (h x (List.mem_cons_self x xs))
    have ht := ih (fun a ha b hb => h a (List.mem_cons_of_mem x ha) b hb)
    simp only [List.flatMap_cons, List.filter_append, hx, ht, List.filter_cons]
    by_cases hcx : c x = true
    · simp [hcx]
    · simp [hcx, Bool.of_not_eq_true hcx]

theorem mem_dedup_foldl {α : Type} [DecidableEq α] (l : List α) (acc : List α) (a : α) :
    (a ∈ l.foldl (fun acc x => if x ∈ acc then acc else acc ++ [x]) acc) ↔
      a ∈ acc ∨ a ∈ l := by
  induction l generalizing acc with
  | nil => simp
  | cons x xs ih =>
    simp only [List.foldl_cons]
    rw [ih]
    by_cases hx : x ∈ acc
    · simp only [if_pos hx, List.mem_cons]
      constructor
      · rintro (h | h)
        · exact Or.inl h
        · exact Or.inr (Or.inr h)
      · rintro (h | rfl | h)
        · exact Or.inl h
        · exact Or.inl hx
        · exact Or.inr h
    · simp only [if_neg hx, List.mem_append, List.mem_singleton, List.mem_cons]
      tauto

theorem mem_dedupFirstSeen {α : Type} [DecidableEq α] (l : List α) (a : α) :
    a ∈ dedupFirstSeen l ↔ a ∈ l := by
  unfold dedupFirstSeen
  rw [mem_dedup_foldl]
  simp

theorem idxOfD_getElem {α : Type} [DecidableEq α] (a : α) (l : List α) (i : Nat)
    (h : idxOfD a l = some i) : l[i]? = some a := by
  induction l generalizing i with
  | nil => simp [idxOfD] at h
  | cons b bs ih =>
    by_cases hab : a = b
    · simp [idxOfD, hab] at h
      subst hab
      simp [← h]
    · simp only [idxOfD, if_neg hab, Option.map_eq_some'] at h
      obtain ⟨j, hj, rfl⟩ := h
      simpa using ih j hj

theorem idxOfD_of_mem {α : Type} [DecidableEq α] (a : α) (l : List α)
    (h : a ∈ l) : ∃ i, idxOfD a l = some i := by
  induction l with
  | nil => simp at h
  | cons b bs ih =>
    by_cases hab : a = b
    · exact ⟨0, by simp [idxOfD, hab]⟩
    · have : a ∈ bs := by
        rcases List.mem_cons.mp h with h' | h'
        · exact absurd h' hab
        · exact h'
      obtain ⟨j, hj⟩ := ih this
      exact ⟨j + 1, by simp [idxOfD, hab, hj]⟩

theorem assignId_spec {α : Type} [DecidableEq α] (entities : List α) (tok : α)
    (h : tok ∈ entities) :
    ∃ k, assignId entities tok = some (k + 1) ∧ entities[k]? = some tok := by
  obtain ⟨i, hi⟩ := idxOfD_of_mem tok entities h
  exact ⟨i, by simp [assignId, hi], idxOfD_getElem tok entities i hi⟩

theorem length_flatMap_const {α β : Type} (l : List α) (f : α → List β) (c : Nat)
    (h : ∀ x ∈ l, (f x).length = c) : (l.flatMap f).length = l.length * c := by
  induction l with
  | nil => simp
  | cons x xs ih =>
    simp only [List.flatMap_cons, List.length_append, List.length_cons]
    rw [h x (List.mem_cons_self x xs),
        ih (fun y hy => h y (List.mem_cons_of_mem x hy))]
    ring

theorem length_expandMatches_of_le_one {α : Type} (l : List α) (h : l.length ≤ 1) :
    (expandMatches l).length = 1 := by
  cases l with
  | nil => simp [expandMatches]
  | cons x xs =>
    cases xs with
    | nil => simp [expandMatches]
    | cons y ys => simp at h

theorem length_expandMatches_of_pos {α : Type} (l : List α) (h : 0 < l.length) :
    (expandMatches l).length = l.length := by
  cases l with
  | nil => simp at h
  | cons x xs => simp [expandMatches]

theorem mem_expandMatches {α : Type} (l : List α) (x : Option α)
    (h : x ∈ expandMatches l) : x = none ∨ ∃ y ∈ l, x = some y := by
  cases l with
  | nil => simp [expandMatches] at h; exact Or.inl h
  | cons a as =>
    simp only [expandMatches, List.mem_map] at h
    obtain ⟨y, hy, rfl⟩ := h
    exact Or.inr ⟨y, hy, rfl⟩

theorem mem_applyOptFilter {β : Type} (p : Option β) (f : β → MediaViewRow → Bool)
    (rows : List MediaViewRow) (r : MediaViewRow) (h : r ∈ applyOptFilter p f rows) :
    r ∈ rows ∧ ∀ v, p = some v → f v r = true := by
  cases p with
  | none => exact ⟨h, by simp⟩
  | some v =>
    have := List.mem_filter.mp h
    exact ⟨this.1, fun w hw => by cases hw; exact this.2⟩

/-! ## Claim C1: movie/show splitter and unknown type tags -/

/-- C1 counterexample: on a dataset containing a row whose `type` is
`"OTHER"`, `transform_movies` and `transform_shows` do not abort — both
return `Except.ok` (silently dropping the row), so the splitter does not
fail loudly on an unknown type discriminator. -/
theorem c1_counterexample_no_abort_on_unknown_tag :
    (∃ r ∈ [c1TitleBad], r.type ≠ "MOVIE" ∧ r.type ≠ "SHOW") ∧
    transform_movies [c1TitleBad] = Except.ok [] ∧
    transform_shows [c1TitleBad] = Except.ok [] ∧
    (∀ e, transform_movies [c1TitleBad] ≠ Except.error e) ∧
    (∀ e, transform_shows [c1TitleBad] ≠ Except.error e) := by
  refine ⟨⟨c1TitleBad, by simp, by decide⟩, rfl, rfl, ?_, ?_⟩
  · intro e h
    simp [transform_movies] at h
  · intro e h
    simp [transform_shows] at h

/-- C1 (amended): the splitter never aborts; a titles row whose `type`
discriminator is neither `"MOVIE"` nor `"SHOW"` is silently dropped —
both transforms return `Except.ok`, and every output row originates
from a source row carrying the matching known tag. -/
theorem c1_amended_unknown_tags_silently_dropped (dataset : List TitleRow) :
    (∃ ms, transform_movies dataset = Except.ok ms ∧
        ∀ m ∈ ms, ∃ src ∈ dataset, src.type = "MOVIE" ∧ m.movie_id = src.id) ∧
    (∃ ss, transform_shows dataset = Except.ok ss ∧
        ∀ s ∈ ss, ∃ src ∈ dataset, src.type = "SHOW" ∧ s.show_id = src.id) := by
  constructor
  · refine ⟨_, rfl, ?_⟩
    intro m hm
    simp only [List.mem_map] at hm
    obtain ⟨⟨i, r⟩, hmem, rfl⟩ := hm
    have hr : r ∈ dataset.filter (fun r => r.type == "MOVIE") :=
      List.getElem?_mem (List.mk_mem_enum_iff_getElem?.mp hmem)
    have := List.mem_filter.mp hr
    exact ⟨r, this.1, by simpa using this.2, rfl⟩
  · refine ⟨_, rfl, ?_⟩
    intro s hs
    simp only [List.mem_map] at hs
    obtain ⟨⟨i, r⟩, hmem, rfl⟩ := hs
    have hr : r ∈ dataset.filter (fun r => r.type == "SHOW") :=
      List.getElem?_mem (List.mk_mem_enum_iff_getElem?.mp hmem)
    have := List.mem_filter.mp hr
    exact ⟨r, this.1, by simpa using this.2, rfl⟩

/-! ## Claim C3: RatingInfo extractor multiplicity -/

/-- C3 counterexample: a title with no rating data at all still produces
an `imdb_info` row (with null rating fields), not zero rows. -/
theorem c3_counterexample_row_without_rating_data :
    c3TitleNoRating.imdb_id = none ∧ c3TitleNoRating.imdb_score = none ∧
    c3TitleNoRating.imdb_votes = none ∧
    (transform_imdb_info [c3TitleNoRating]).length = 1 ∧
    transform_imdb_info [c3TitleNoRating] ≠ [] := by
  refine ⟨rfl, rfl, rfl, rfl, ?_⟩
  decide

/-- C3 (amended): `transform_imdb_info` produces exactly one output row
per source title row, unconditionally: a title with no rating data
yields a row whose rating fields are all null rather than zero rows. -/
theorem c3_amended_one_row_per_title (dataset : List TitleRow) :
    (transform_imdb_info dataset).length = dataset.length ∧
    ∀ r ∈ dataset,
      ({ imdb_id := r.imdb_id, imdb_score := r.imdb_score,
         imdb_votes := r.imdb_votes, movie_id := routeMovie r.id,
         show_id := routeShow r.id } : ImdbInfoRow) ∈ transform_imdb_info dataset := by
  constructor
  · simp [transform_imdb_info]
  · intro r hr
    exact List.mem_map.mpr ⟨r, hr, rfl⟩

/-- C3 amended witness: on the concrete no-rating title the extractor
yields exactly the single all-null-rating row. -/
theorem c3_amended_witness :
    (transform_imdb_info [c3TitleNoRating]).length = [c3TitleNoRating].length ∧
    ({ imdb_id := none, imdb_score := none, imdb_votes := none,
       movie_id := some "tm2", show_id := none } : ImdbInfoRow)
      ∈ transform_imdb_info [c3TitleNoRating] := by
  have h := c3_amended_one_row_per_title [c3TitleNoRating]
  refine ⟨h.1, ?_⟩
  have := h.2 c3TitleNoRating (by simp)
  simpa using this

/-! ## Claim C9: prediction append -/

/-- C9 counterexample: the response serialized through the declared
`response_model=schemas.PredictionAdd` is identical for two server
states that assign different auto-increment ids and timestamps, so the
value returned to the caller cannot include the assigned id and
timestamp of the stored record. -/
theorem c9_counterexample_response_lacks_id_and_timestamp :
    submit_prediction_response c9StateA c9Request =
      submit_prediction_response c9StateB c9Request ∧
    (submit_prediction c9StateA c9Request).2.index ≠
      (submit_prediction c9StateB c9Request).2.index ∧
    (submit_prediction c9StateA c9Request).2.timestamp ≠
      (submit_prediction c9StateB c9Request).2.timestamp ∧
    ¬ ∃ (fIdx : PredictionAdd → Nat) (fTs : PredictionAdd → Int),
        ∀ st p, fIdx (submit_prediction_response st p) =
            (submit_prediction st p).2.index ∧
          fTs (submit_prediction_response st p) =
            (submit_prediction st p).2.timestamp := by
  refine ⟨by decide, by decide, by decide, ?_⟩
  rintro ⟨fIdx, _fTs, h⟩
  have h1 := (h c9StateA c9Request).1
  have h2 := (h c9StateB c9Request).1
  have heq : submit_prediction_response c9StateA c9Request =
      submit_prediction_response c9StateB c9Request := by decide
  rw [heq, h2] at h1
  exact absurd h1 (by decide)

/-- C9 (amended): the append operation assigns the server clock as
creation timestamp and the next sequential auto-increment id to the
stored record and appends it to the log, but the response returned to
the caller carries only the stored record's `user_id` and
`prediction_value` (the declared response model omits the assigned id
and timestamp). -/
theorem c9_amended_append_semantics (st : ApiState) (p : PredictionAdd) :
    (submit_prediction st p).2.index = st.nextIndex ∧
    (submit_prediction st p).1.nextIndex = st.nextIndex + 1 ∧
    (submit_prediction st p).2.timestamp = st.clock ∧
    (submit_prediction st p).2.user_id = p.user_id ∧
    (submit_prediction st p).2.prediction_value = p.prediction_value ∧
    (submit_prediction st p).1.predictions =
      st.predictions ++ [(submit_prediction st p).2] ∧
    submit_prediction_response st p =
      { user_id := p.user_id, prediction_value := p.prediction_value } :=
  ⟨rfl, rfl, rfl, rfl, rfl, rfl, rfl⟩

/-! ## Claim C10: strict numeric thresholds in the media query -/

/-- C10: the media query's numeric filters are strict — whenever the
`imdb_score` (resp. `imdb_votes`) parameter is set to `v`, every row
returned by `get_media` has a non-null score strictly greater than `v`
(resp. vote count strictly greater), so rows equal to the threshold are
excluded. -/
theorem c10_media_filters_strict (db : List MediaViewRow) (p : MediaParams) :
    (∀ v, p.imdb_score = some v →
      ∀ r ∈ get_media db p, ∃ s, r.imdb_score = some s ∧ v < s) ∧
    (∀ n, p.imdb_votes = some n →
      ∀ r ∈ get_media db p, ∃ k, r.imdb_votes = some k ∧ n < k) := by
  have hbase : ∀ r ∈ get_media db p,
      (∀ v, p.imdb_score = some v → optGtRat r.imdb_score v = true) ∧
      (∀ n, p.imdb_votes = some n → optGtInt r.imdb_votes n = true) := by
    intro r hr
    simp only [get_media] at hr
    have hr1 := List.mem_of_mem_take hr
    have hr2 := List.mem_of_mem_drop hr1
    have hv := mem_applyOptFilter _ _ _ _ hr2
    have hs := mem_applyOptFilter _ _ _ _ hv.1
    exact ⟨fun v hpv => hs.2 v hpv, fun n hpn => hv.2 n hpn⟩
  constructor
  · intro v hpv r hr
    have := (hbase r hr).1 v hpv
    cases hscore : r.imdb_score with
    | none => rw [hscore] at this; simp [optGtRat] at this
    | some s =>
      rw [hscore] at this
      simp only [optGtRat, decide_eq_true_eq] at this
      exact ⟨s, rfl, this⟩
  · intro n hpn r hr
    have := (hbase r hr).2 n hpn
    cases hvotes : r.imdb_votes with
    | none => rw [hvotes] at this; simp [optGtInt] at this
    | some k =>
      rw [hvotes] at this
      simp only [optGtInt, decide_eq_true_eq] at this
      exact ⟨k, rfl, this⟩

/-- C10 witness: with thresholds score > 7 and votes > 50, every row
returned over the one-row view has score above 7 and votes above 50. -/
theorem c10_media_filters_strict_witness :
    c10Params.imdb_score = some 7 ∧ c10Params.imdb_votes = some 50 ∧
    (∀ r ∈ get_media [c10Row] c10Params,
      ∃ s, r.imdb_score = some s ∧ (7 : Rat) < s) ∧
    (∀ r ∈ get_media [c10Row] c10Params,
      ∃ k, r.imdb_votes = some k ∧ (50 : Int) < k) :=
  ⟨rfl, rfl, (c10_media_filters_strict [c10Row] c10Params).1 7 rfl,
    (c10_media_filters_strict [c10Row] c10Params).2 50 rfl⟩

/-! ## Claim C5: loader fail-soft across tables -/

/-- C5: the loader loop is fail-soft across tables — as long as insert
failures are database (`SQLAlchemyError`) errors, every table in the
fixed sequence is attempted and logged exactly once in order, and each
failing table's error is logged together with the table name; one
table's failure never prevents the attempts on the remaining tables. -/
theorem c5_loader_fail_soft (ins : String → Except PyExc Unit) (tables : List String)
    (hdb : ∀ t ∈ tables, ∀ m, ins t ≠ Except.error (PyExc.otherError m)) :
    (loaderLoop ins tables).map LogEntry.table = tables ∧
    ∀ t ∈ tables, ∀ m, ins t = Except.error (PyExc.sqlAlchemyError m) →
      LogEntry.errorEntry t m ∈ loaderLoop ins tables := by
  induction tables with
  | nil => exact ⟨rfl, by simp⟩
  | cons t ts ih =>
    obtain ⟨ih1, ih2⟩ := ih (fun u hu m => hdb u (List.mem_cons_of_mem t hu) m)
    cases hins : ins t with
    | ok u =>
      cases u
      refine ⟨by simp [loaderLoop, hins, LogEntry.table, ih1], ?_⟩
      intro u hu m hm
      rcases List.mem_cons.mp hu with rfl | hu'
      · rw [hins] at hm; cases hm
      · simp only [loaderLoop, hins, List.mem_cons]
        exact Or.inr (ih2 u hu' m hm)
    | error e =>
      cases e with
      | sqlAlchemyError m0 =>
        refine ⟨by simp [loaderLoop, hins, LogEntry.table, ih1], ?_⟩
        intro u hu m hm
        rcases List.mem_cons.mp hu with rfl | hu'
        · rw [hins] at hm
          have hmsg := Except.error.inj hm
          have : m0 = m := by injection hmsg
          simp only [loaderLoop, hins, List.mem_cons]
          exact Or.inl (by rw [this])
        · simp only [loaderLoop, hins, List.mem_cons]
          exact Or.inr (ih2 u hu' m hm)
      | otherError m0 =>
        exact absurd hins (hdb t (List.mem_cons_self t ts) m0)

/-- C5 witness: with a constraint failure on the `genres` table, all
thirteen tables of the pipeline's fixed sequence are still attempted
and the failure is logged with the table name. -/
theorem c5_loader_fail_soft_witness :
    (loaderLoop c5Insert dataTablePairs).map LogEntry.table = dataTablePairs ∧
    LogEntry.errorEntry "genres" "UNIQUE constraint failed" ∈
      loaderLoop c5Insert dataTablePairs := by
  have h := c5_loader_fail_soft c5Insert dataTablePairs
    (by intro t ht m; simp only [c5Insert]; split <;> simp)
  exact ⟨h.1, h.2 "genres" (by decide) "UNIQUE constraint failed" rfl⟩

/-! ## Claim C4: prefix routing of bridge rows -/

theorem leadMatch_second_distinct (x y z : Char) (hyz : y ≠ z) (l : List Char)
    (h : leadMatch [x, y] l = true) : leadMatch [x, z] l = false := by
  match l with
  | [] => simp [leadMatch] at h
  | [a] => simp [leadMatch] at h
  | a :: b :: rest =>
    simp only [leadMatch, Bool.and_eq_true, beq_iff_eq] at h
    obtain ⟨ha, hb, -⟩ := h
    subst ha
    subst hb
    simp [leadMatch, hyz, Ne.symm hyz]

theorem pyStartswith_tm_not_ts (t : String) (h : pyStartswith t "tm" = true) :
    pyStartswith t "ts" = false := by
  have htm : "tm".toList = ['t', 'm'] := rfl
  have hts : "ts".toList = ['t', 's'] := rfl
  unfold pyStartswith at h ⊢
  rw [htm] at h
  rw [hts]
  exact leadMatch_second_distinct 't' 'm' 's' (by decide) t.toList h

theorem pyStartswith_ts_not_tm (t : String) (h : pyStartswith t "ts" = true) :
    pyStartswith t "tm" = false := by
  have htm : "tm".toList = ['t', 'm'] := rfl
  have hts : "ts".toList = ['t', 's'] := rfl
  unfold pyStartswith at h ⊢
  rw [hts] at h
  rw [htm]
  exact leadMatch_second_distinct 't' 's' 'm' (by decide) t.toList h

/-- How the two routing assignments behave on an arbitrary title id:
`tm…` populates only `movie_id`, `ts…` only `show_id`, and an id with
neither prefix populates neither column. -/
theorem route_trichotomy (t : String) :
    (pyStartswith t "tm" = true → routeMovie t = some t ∧ routeShow t = none) ∧
    (pyStartswith t "ts" = true → routeShow t = some t ∧ routeMovie t = none) ∧
    (pyStartswith t "tm" = false → pyStartswith t "ts" = false →
      routeMovie t = none ∧ routeShow t = none) := by
  refine ⟨fun h => ⟨?_, ?_⟩, fun h => ⟨?_, ?_⟩, fun h1 h2 => ⟨?_, ?_⟩⟩
  · simp [routeMovie, h]
  · simp [routeShow, pyStartswith_tm_not_ts t h]
  · simp [routeShow, h]
  · simp [routeMovie, pyStartswith_ts_not_tm t h]
  · simp [routeMovie, h1]
  · simp [routeShow, h2]

/-- C4 counterexample: a source title id starting with neither `tm` nor
`ts` produces a genres bridge row in which *neither* of `movie_id`,
`show_id` is populated — so "exactly one non-null for every possible
source title id" fails. -/
theorem c4_counterexample_unrouted_id :
    (∃ b ∈ (transform_genres [c4TitleUnrouted]).2,
      b.movie_id = none ∧ b.show_id = none) ∧
    ¬ (∀ b ∈ (transform_genres [c4TitleUnrouted]).2,
        (b.movie_id ≠ none ∧ b.show_id = none) ∨
        (b.movie_id = none ∧ b.show_id ≠ none)) := by
  constructor
  · decide
  · decide

/-- C4 (amended): every bridge/link row of every extractor carries
`movie_id = routeMovie t` and `show_id = routeShow t` for the source
row's title id `t`; consequently ids prefixed `tm` populate exactly
`movie_id`, ids prefixed `ts` exactly `show_id`, and ids with neither
prefix leave both columns null (so at most one — not always exactly
one — of the two columns is non-null). -/
theorem c4_amended_prefix_routing (ds : List TitleRow) (cs : List CreditRow) :
    (∀ b ∈ (transform_genres ds).2, ∃ t, (∃ r ∈ ds, r.id = t) ∧
        b.movie_id = routeMovie t ∧ b.show_id = routeShow t) ∧
    (∀ b ∈ (transform_production_countries ds).2, ∃ t, (∃ r ∈ ds, r.id = t) ∧
        b.movie_id = routeMovie t ∧ b.show_id = routeShow t) ∧
    (∀ b ∈ (transform_actors cs).2, ∃ t, (∃ r ∈ cs, r.id = t) ∧
        b.movie_id = routeMovie t ∧ b.show_id = routeShow t) ∧
    (∀ b ∈ (transform_directors cs).2, ∃ t, (∃ r ∈ cs, r.id = t) ∧
        b.movie_id = routeMovie t ∧ b.show_id = routeShow t) ∧
    (∀ b ∈ (transform_characters cs).2, ∃ t, (∃ r ∈ cs, r.id = t) ∧
        b.movie_id = routeMovie t ∧ b.show_id = routeShow t) ∧
    (∀ b ∈ transform_imdb_info ds, ∃ t, (∃ r ∈ ds, r.id = t) ∧
        b.movie_id = routeMovie t ∧ b.show_id = routeShow t) ∧
    (∀ t : String,
      (pyStartswith t "tm" = true → routeMovie t = some t ∧ routeShow t = none) ∧
      (pyStartswith t "ts" = true → routeShow t = some t ∧ routeMovie t = none) ∧
      (pyStartswith t "tm" = false → pyStartswith t "ts" = false →
        routeMovie t = none ∧ routeShow t = none)) := by
  refine ⟨?_, ?_, ?_, ?_, ?_, ?_, route_trichotomy⟩
  · intro b hb
    simp only [transform_genres, genresBridge, List.mem_map] at hb
    obtain ⟨p, hp, rfl⟩ := hb
    simp only [genresExploded, List.mem_flatMap, List.mem_map] at hp
    obtain ⟨r, hr, t, -, rfl⟩ := hp
    exact ⟨r.id, ⟨r, hr, rfl⟩, rfl, rfl⟩
  · intro b hb
    simp only [transform_production_countries, countriesBridge, List.mem_map] at hb
    obtain ⟨p, hp, rfl⟩ := hb
    simp only [countriesExploded, List.mem_flatMap, List.mem_map] at hp
    obtain ⟨r, hr, t, -, rfl⟩ := hp
    exact ⟨r.id, ⟨r, hr, rfl⟩, rfl, rfl⟩
  · intro b hb
    simp only [transform_actors, actorsBridge, List.mem_map] at hb
    obtain ⟨r, hr, rfl⟩ := hb
    exact ⟨r.id, ⟨r, (List.mem_filter.mp hr).1, rfl⟩, rfl, rfl⟩
  · intro b hb
    simp only [transform_directors, directorsBridge, List.mem_map] at hb
    obtain ⟨r, hr, rfl⟩ := hb
    exact ⟨r.id, ⟨r, (List.mem_filter.mp hr).1, rfl⟩, rfl, rfl⟩
  · intro b hb
    simp only [transform_characters, charactersBridge, List.mem_map] at hb
    obtain ⟨p, hp, rfl⟩ := hb
    simp only [charsExploded, List.mem_flatMap, List.mem_map] at hp
    obtain ⟨r, hr, t, -, rfl⟩ := hp
    exact ⟨r.id, ⟨r, (List.mem_filter.mp hr).1, rfl⟩, rfl, rfl⟩
  · intro b hb
    simp only [transform_imdb_info, List.mem_map] at hb
    obtain ⟨r, hr, rfl⟩ := hb
    exact ⟨r.id, ⟨r, hr, rfl⟩, rfl, rfl⟩

/-- C4 amended witness: routing evaluated at concrete ids of all three
prefix shapes. -/
theorem c4_amended_prefix_routing_witness :
    (pyStartswith "tm7" "tm" = true ∧
      routeMovie "tm7" = some "tm7" ∧ routeShow "tm7" = none) ∧
    (pyStartswith "ts7" "ts" = true ∧
      routeShow "ts7" = some "ts7" ∧ routeMovie "ts7" = none) ∧
    (pyStartswith "ab1" "tm" = false ∧ pyStartswith "ab1" "ts" = false ∧
      routeMovie "ab1" = none ∧ routeShow "ab1" = none) := by
  have h := (c4_amended_prefix_routing [] []).2.2.2.2.2.2
  refine ⟨⟨by decide, (h "tm7").1 (by decide)⟩,
    ⟨by decide, (h "ts7").2.1 (by decide)⟩,
    ⟨by decide, by decide, (h "ab1").2.2 (by decide) (by decide)⟩⟩


theorem routeMovie_beq_eq (rid : String) (htm : pyStartswith rid "tm" = true)
    (t : String) : (routeMovie t == some rid) = (t == rid) := by
  by_cases h : t = rid
  · subst h
    simp [routeMovie, htm]
  · apply Bool.eq_iff_iff.mpr
    unfold routeMovie
    split <;> simp [beq_iff_eq, h]

/-- C2 counterexample: a title whose `genres` cell is null does *not*
yield zero genre bridge rows — the `NaN` survives `explode`, the merge
matches it against the `NaN` entity row, and exactly one bridge row is
produced, together with a null-named genre entity row. -/
theorem c2_counterexample_null_genres_row :
    c2TitleNullGenres.genres = none ∧
    (transform_genres [c2TitleNullGenres]).2.length = 1 ∧
    (transform_genres [c2TitleNullGenres]).2 ≠ [] ∧
    (∃ e ∈ (transform_genres [c2TitleNullGenres]).1, e.genre = none) := by
  exact ⟨rfl, by decide, by decide, by decide⟩

/-- C2 (amended): for each of the three extractors (genres, production
countries, characters), a source row whose list-valued cell is null or
the empty list literal `"[]"` yields exactly one bridge row for that
occurrence — not zero: the whole bridge decomposes as the rows of the
preceding source rows, then the single row built from that occurrence's
lone token (the null token for an absent cell, the empty-string token
for `"[]"`), then the rows of the following source rows — and that
token's surrogate id references an entity row derived from the
null/empty value. -/
theorem c2_amended_null_list_field_one_bridge_row :
    (∀ (pre post : List TitleRow) (r : TitleRow),
      r.genres = none ∨ r.genres = some "[]" →
      ∃ tok, (r.genres = none → tok = none) ∧
        (r.genres = some "[]" → tok = some "") ∧
        genreTokens r = [tok] ∧
        (transform_genres (pre ++ r :: post)).2 =
          (genresExploded pre).map (mkGenreBridgeRowOf (pre ++ r :: post)) ++
            mkGenreBridgeRowOf (pre ++ r :: post) (r.id, tok) ::
              (genresExploded post).map (mkGenreBridgeRowOf (pre ++ r :: post)) ∧
        ∃ e ∈ (transform_genres (pre ++ r :: post)).1,
          assignId (genreEntityTokens (pre ++ r :: post)) tok = some e.genre_id ∧
            e.genre = tok) ∧
    (∀ (pre post : List TitleRow) (r : TitleRow),
      r.production_countries = none ∨ r.production_countries = some "[]" →
      ∃ tok, (r.production_countries = none → tok = none) ∧
        (r.production_countries = some "[]" → tok = some "") ∧
        countryTokens r = [tok] ∧
        (transform_production_countries (pre ++ r :: post)).2 =
          (countriesExploded pre).map (mkCountryBridgeRowOf (pre ++ r :: post)) ++
            mkCountryBridgeRowOf (pre ++ r :: post) (r.id, tok) ::
              (countriesExploded post).map (mkCountryBridgeRowOf (pre ++ r :: post)) ∧
        ∃ e ∈ (transform_production_countries (pre ++ r :: post)).1,
          assignId (countryEntityTokens (pre ++ r :: post)) tok = some e.country_id ∧
            e.country = tok) ∧
    (∀ (pre post : List CreditRow) (r : CreditRow), r.role = "ACTOR" →
      r.character = none ∨ r.character = some "[]" →
      ∃ tok, (r.character = none → tok = none) ∧
        (r.character = some "[]" → tok = some "") ∧
        charTokens r = [tok] ∧
        (transform_characters (pre ++ r :: post)).2 =
          (charsExploded pre).map (mkCharacterBridgeRowOf (pre ++ r :: post)) ++
            mkCharacterBridgeRowOf (pre ++ r :: post) (r.id, r.person_id, tok) ::
              (charsExploded post).map (mkCharacterBridgeRowOf (pre ++ r :: post)) ∧
        ∃ e ∈ (transform_characters (pre ++ r :: post)).1,
          assignId (characterEntityTokens (pre ++ r :: post)) tok = some e.character_id ∧
            e.character = tok) := by
  refine ⟨?_, ?_, ?_⟩
  · intro pre post r hnull
    obtain ⟨tok, hvn, hve, htok⟩ : ∃ tok,
        (r.genres = none → tok = none) ∧
        (r.genres = some "[]" → tok = some "") ∧ genreTokens r = [tok] := by
      rcases hnull with h | h
      · refine ⟨none, fun _ => rfl, ?_, ?_⟩
        · intro h'
          rw [h] at h'
          cases h'
        · simp [genreTokens, h, tokenizeListField, explodeCell]
      · refine ⟨some "", ?_, fun _ => rfl, ?_⟩
        · intro h'
          rw [h] at h'
          cases h'
        · unfold genreTokens
          rw [h]
          rfl
    refine ⟨tok, hvn, hve, htok, ?_, ?_⟩
    · show genresBridge (pre ++ r :: post) = _
      unfold genresBridge genresExploded
      rw [List.flatMap_append, List.flatMap_cons, htok]
      simp only [List.map_append, List.map_cons, List.map_nil,
        List.singleton_append, List.cons_append, List.nil_append]
      rfl
    · have hexp : ((r.id, tok) : String × Option String) ∈
          genresExploded (pre ++ r :: post) := by
        unfold genresExploded
        refine List.mem_flatMap.mpr ⟨r, by simp, ?_⟩
        rw [htok]
        simp
      have htoks : tok ∈ genreEntityTokens (pre ++ r :: post) := by
        unfold genreEntityTokens
        rw [mem_dedupFirstSeen]
        exact List.mem_map.mpr ⟨(r.id, tok), hexp, rfl⟩
      obtain ⟨k, hassign, hget⟩ := assignId_spec _ _ htoks
      refine ⟨{ genre_id := k + 1, genre := tok }, ?_, by simpa using hassign, rfl⟩
      show _ ∈ genresEntities (pre ++ r :: post)
      unfold genresEntities
      exact List.mem_map.mpr ⟨(k, tok), List.mk_mem_enum_iff_getElem?.mpr hget, rfl⟩
  · intro pre post r hnull
    obtain ⟨tok, hvn, hve, htok⟩ : ∃ tok,
        (r.production_countries = none → tok = none) ∧
        (r.production_countries = some "[]" → tok = some "") ∧
          countryTokens r = [tok] := by
      rcases hnull with h | h
      · refine ⟨none, fun _ => rfl, ?_, ?_⟩
        · intro h'
          rw [h] at h'
          cases h'
        · simp [countryTokens, h, tokenizeListField, explodeCell]
      · refine ⟨some "", ?_, fun _ => rfl, ?_⟩
        · intro h'
          rw [h] at h'
          cases h'
        · unfold countryTokens
          rw [h]
          rfl
    refine ⟨tok, hvn, hve, htok, ?_, ?_⟩
    · show countriesBridge (pre ++ r :: post) = _
      unfold countriesBridge countriesExploded
      rw [List.flatMap_append, List.flatMap_cons, htok]
      simp only [List.map_append, List.map_cons, List.map_nil,
        List.singleton_append, List.cons_append, List.nil_append]
      rfl
    · have hexp : ((r.id, tok) : String × Option String) ∈
          countriesExploded (pre ++ r :: post) := by
        unfold countriesExploded
        refine List.mem_flatMap.mpr ⟨r, by simp, ?_⟩
        rw [htok]
        simp
      have htoks : tok ∈ countryEntityTokens (pre ++ r :: post) := by
        unfold countryEntityTokens
        rw [mem_dedupFirstSeen]
        exact List.mem_map.mpr ⟨(r.id, tok), hexp, rfl⟩
      obtain ⟨k, hassign, hget⟩ := assignId_spec _ _ htoks
      refine ⟨{ country_id := k + 1, country := tok }, ?_, by simpa using hassign, rfl⟩
      show _ ∈ countriesEntities (pre ++ r :: post)
      unfold countriesEntities
      exact List.mem_map.mpr ⟨(k, tok), List.mk_mem_enum_iff_getElem?.mpr hget, rfl⟩
  · intro pre post r hrole hnull
    obtain ⟨tok, hvn, hve, htok⟩ : ∃ tok,
        (r.character = none → tok = none) ∧
        (r.character = some "[]" → tok = some "") ∧ charTokens r = [tok] := by
      rcases hnull with h | h
      · refine ⟨none, fun _ => rfl, ?_, ?_⟩
        · intro h'
          rw [h] at h'
          cases h'
        · simp [charTokens, h, tokenizeListField, explodeCell]
      · refine ⟨some "", ?_, fun _ => rfl, ?_⟩
        · intro h'
          rw [h] at h'
          cases h'
        · unfold charTokens
          rw [h]
          rfl
    have hfil : (pre ++ r :: post).filter (fun x => x.role == "ACTOR") =
        pre.filter (fun x => x.role == "ACTOR") ++
          r :: post.filter (fun x => x.role == "ACTOR") := by
      rw [List.filter_append, List.filter_cons_of_pos (by simp [hrole])]
    refine ⟨tok, hvn, hve, htok, ?_, ?_⟩
    · show charactersBridge (pre ++ r :: post) = _
      unfold charactersBridge charsExploded
      rw [hfil, List.flatMap_append, List.flatMap_cons, htok]
      simp only [List.map_append, List.map_cons, List.map_nil,
        List.singleton_append, List.cons_append, List.nil_append]
      rfl
    · have hexp : ((r.id, r.person_id, tok) : String × Int × Option String) ∈
          charsExploded (pre ++ r :: post) := by
        unfold charsExploded
        refine List.mem_flatMap.mpr ⟨r, ?_, ?_⟩
        · exact List.mem_filter.mpr ⟨by simp, by simp [hrole]⟩
        · rw [htok]
          simp
      have htoks : tok ∈ characterEntityTokens (pre ++ r :: post) := by
        unfold characterEntityTokens
        rw [mem_dedupFirstSeen]
        exact List.mem_map.mpr ⟨(r.id, r.person_id, tok), hexp, rfl⟩
      obtain ⟨k, hassign, hget⟩ := assignId_spec _ _ htoks
      refine ⟨{ character_id := k + 1, character := tok }, ?_,
        by simpa using hassign, rfl⟩
      show _ ∈ charactersEntities (pre ++ r :: post)
      unfold charactersEntities
      exact List.mem_map.mpr ⟨(k, tok), List.mk_mem_enum_iff_getElem?.mpr hget, rfl⟩

/-- C2 amended witness: evaluated on a null-genres movie, an
empty-list-countries show, and a null-character credit, each transform
produces exactly the one expected bridge row and the null/empty entity
row. -/
theorem c2_amended_witness :
    (transform_genres [c2TitleNullGenres]).2 =
      [mkGenreBridgeRowOf [c2TitleNullGenres] (c2TitleNullGenres.id, none)] ∧
    (∃ e ∈ (transform_genres [c2TitleNullGenres]).1,
      assignId (genreEntityTokens [c2TitleNullGenres]) none = some e.genre_id ∧
        e.genre = none) ∧
    (transform_production_countries [c2TitleEmptyCountries]).2 =
      [mkCountryBridgeRowOf [c2TitleEmptyCountries]
        (c2TitleEmptyCountries.id, some "")] ∧
    (∃ e ∈ (transform_production_countries [c2TitleEmptyCountries]).1,
      assignId (countryEntityTokens [c2TitleEmptyCountries]) (some "") =
          some e.country_id ∧
        e.country = some "") ∧
    (transform_characters [c2CreditNullChar]).2 =
      [mkCharacterBridgeRowOf [c2CreditNullChar]
        (c2CreditNullChar.id, c2CreditNullChar.person_id, none)] ∧
    (∃ e ∈ (transform_characters [c2CreditNullChar]).1, e.character = none) := by
  obtain ⟨h1, h2, h3⟩ := c2_amended_null_list_field_one_bridge_row
  obtain ⟨tok1, hv1, -, -, heq1, hent1⟩ := h1 [] [] c2TitleNullGenres (Or.inl rfl)
  obtain ⟨tok2, -, hv2, -, heq2, hent2⟩ := h2 [] [] c2TitleEmptyCountries (Or.inr rfl)
  obtain ⟨tok3, hv3, -, -, heq3, hent3⟩ := h3 [] [] c2CreditNullChar rfl (Or.inl rfl)
  have e1 : tok1 = none := hv1 rfl
  have e2 : tok2 = some "" := hv2 rfl
  have e3 : tok3 = none := hv3 rfl
  subst e1
  subst e2
  subst e3
  simp only [List.nil_append] at heq1 hent1 heq2 hent2 heq3 hent3
  refine ⟨?_, hent1, ?_, hent2, ?_, ?_⟩
  · rw [heq1]
    rfl
  · rw [heq2]
    rfl
  · rw [heq3]
    rfl
  · obtain ⟨e, he, -, hc⟩ := hent3
    exact ⟨e, he, hc⟩

/-! ## Claim C6: bridge/entity round trip within one run -/

/-- C6: every bridge row produced by the genre, country, and character
extractors carries a non-null surrogate id equal to the id of some row
of the entity set produced by the same extractor call on the same
input. -/
theorem c6_bridge_round_trip (ds : List TitleRow) (cs : List CreditRow) :
    (∀ b ∈ (transform_genres ds).2,
      ∃ e ∈ (transform_genres ds).1, b.genre_id = some e.genre_id) ∧
    (∀ b ∈ (transform_production_countries ds).2,
      ∃ e ∈ (transform_production_countries ds).1, b.country_id = some e.country_id) ∧
    (∀ b ∈ (transform_characters cs).2,
      ∃ e ∈ (transform_characters cs).1, b.character_id = some e.character_id) := by
  refine ⟨?_, ?_, ?_⟩
  · intro b hb
    simp only [transform_genres, genresBridge, List.mem_map] at hb
    obtain ⟨p, hp, rfl⟩ := hb
    have htoks : p.2 ∈ genreEntityTokens ds := by
      unfold genreEntityTokens
      rw [mem_dedupFirstSeen]
      exact List.mem_map.mpr ⟨p, hp, rfl⟩
    obtain ⟨k, hassign, hget⟩ := assignId_spec _ _ htoks
    refine ⟨{ genre_id := k + 1, genre := p.2 }, ?_, ?_⟩
    · show _ ∈ genresEntities ds
      unfold genresEntities
      exact List.mem_map.mpr ⟨(k, p.2), List.mk_mem_enum_iff_getElem?.mpr hget, rfl⟩
    · simpa using hassign
  · intro b hb
    simp only [transform_production_countries, countriesBridge, List.mem_map] at hb
    obtain ⟨p, hp, rfl⟩ := hb
    have htoks : p.2 ∈ countryEntityTokens ds := by
      unfold countryEntityTokens
      rw [mem_dedupFirstSeen]
      exact List.mem_map.mpr ⟨p, hp, rfl⟩
    obtain ⟨k, hassign, hget⟩ := assignId_spec _ _ htoks
    refine ⟨{ country_id := k + 1, country := p.2 }, ?_, ?_⟩
    · show _ ∈ countriesEntities ds
      unfold countriesEntities
      exact List.mem_map.mpr ⟨(k, p.2), List.mk_mem_enum_iff_getElem?.mpr hget, rfl⟩
    · simpa using hassign
  · intro b hb
    simp only [transform_characters, charactersBridge, List.mem_map] at hb
    obtain ⟨p, hp, rfl⟩ := hb
    have htoks : p.2.2 ∈ characterEntityTokens cs := by
      unfold characterEntityTokens
      rw [mem_dedupFirstSeen]
      exact List.mem_map.mpr ⟨p, hp, rfl⟩
    obtain ⟨k, hassign, hget⟩ := assignId_spec _ _ htoks
    refine ⟨{ character_id := k + 1, character := p.2.2 }, ?_, ?_⟩
    · show _ ∈ charactersEntities cs
      unfold charactersEntities
      exact List.mem_map.mpr ⟨(k, p.2.2), List.mk_mem_enum_iff_getElem?.mpr hget, rfl⟩
    · simpa using hassign

/-- C6 witness: the round trip evaluated on a concrete two-genre,
one-country title and a two-character credit (all bridge sets nonempty). -/
theorem c6_bridge_round_trip_witness :
    (transform_genres [c6Title]).2.length = 2 ∧
    (transform_production_countries [c6Title]).2.length = 1 ∧
    (transform_characters [c6Credit]).2.length = 2 ∧
    (∀ b ∈ (transform_genres [c6Title]).2,
      ∃ e ∈ (transform_genres [c6Title]).1, b.genre_id = some e.genre_id) ∧
    (∀ b ∈ (transform_characters [c6Credit]).2,
      ∃ e ∈ (transform_characters [c6Credit]).1, b.character_id = some e.character_id) := by
  have h := c6_bridge_round_trip [c6Title] [c6Credit]
  exact ⟨by decide, by decide, by decide, h.1, h.2.2⟩

/-! ## Claim C8: character field splitting -/

/-- C8: an actor credit (occurring once) whose character field is
`"Tony Stark / Iron Man"` is split on the ` / ` separator into the two
distinct tokens `"Tony Stark"` and `"Iron Man"`, and produces exactly
one characters-bridge row per token; both rows carry the credit's
`actor_id` and the same title routing (`movie_id` populated from the
`tm`-prefixed id, `show_id` null), and their `character_id`s reference
two distinct character entity rows named by the two tokens. -/
theorem c8_character_split (cs : List CreditRow) (r : CreditRow)
    (hrole : r.role = "ACTOR")
    (hchar : r.character = some "Tony Stark / Iron Man")
    (htm : pyStartswith r.id "tm" = true)
    (huniq : cs.filter (fun x => x.role == "ACTOR" && (x.id == r.id &&
        x.person_id == r.person_id)) = [r]) :
    ∃ k1 k2,
      (transform_characters cs).2.filter
          (fun b => b.movie_id == some r.id && b.actor_id == r.person_id) =
        [{ actor_id := r.person_id, character_id := some k1,
           movie_id := some r.id, show_id := none },
         { actor_id := r.person_id, character_id := some k2,
           movie_id := some r.id, show_id := none }] ∧
      k1 ≠ k2 ∧
      ({ character_id := k1, character := some "Tony Stark" } : CharacterEntity)
        ∈ (transform_characters cs).1 ∧
      ({ character_id := k2, character := some "Iron Man" } : CharacterEntity)
        ∈ (transform_characters cs).1 := by
  have htok : charTokens r = [some "Tony Stark", some "Iron Man"] := by
    unfold charTokens
    rw [hchar]
    decide
  have hshow : routeShow r.id = none := by
    unfold routeShow
    rw [pyStartswith_tm_not_ts r.id htm]
    simp
  have hmov : routeMovie r.id = some r.id := by
    simp [routeMovie, htm]
  -- the bridge rows for this credit are the image of this credit's tokens
  have hfb : (transform_characters cs).2.filter
      (fun b => b.movie_id == some r.id && b.actor_id == r.person_id) =
      (charTokens r).map (fun t =>
        ({ actor_id := r.person_id,
           character_id := assignId (characterEntityTokens cs) t,
           movie_id := routeMovie r.id, show_id := routeShow r.id } : CharacterBridgeRow)) := by
    show (charactersBridge cs).filter _ = _
    unfold charactersBridge
    rw [List.filter_map]
    have hcong : (charsExploded cs).filter
        ((fun b => b.movie_id == some r.id && b.actor_id == r.person_id) ∘ fun p =>
          ({ actor_id := p.2.1,
             character_id := assignId (characterEntityTokens cs) p.2.2,
             movie_id := routeMovie p.1, show_id := routeShow p.1 } : CharacterBridgeRow)) =
        (charsExploded cs).filter (fun p => p.1 == r.id && p.2.1 == r.person_id) := by
      apply List.filter_congr
      intro p _
      simp only [Function.comp]
      rw [routeMovie_beq_eq r.id htm p.1]
    rw [hcong]
    unfold charsExploded
    rw [filter_flatMap_blocks _ _ _
        (fun row => row.id == r.id && row.person_id == r.person_id)
        (by intro a _ b hb
            simp only [List.mem_map] at hb
            obtain ⟨t, -, rfl⟩ := hb
            rfl)]
    rw [List.filter_filter]
    have huniq' : (cs.filter fun a =>
        (a.id == r.id && a.person_id == r.person_id) && a.role == "ACTOR") = [r] := by
      rw [← huniq]
      apply List.filter_congr
      intro x _
      cases x.role == "ACTOR" <;> cases x.id == r.id <;>
        cases x.person_id == r.person_id <;> rfl
    rw [huniq', List.flatMap_singleton, List.map_map]
    rfl
  rw [hfb, htok]
  -- both tokens are in the deduplicated token column
  have hrmem : r ∈ cs.filter (fun x => x.role == "ACTOR") := by
    have : r ∈ cs.filter (fun x => x.role == "ACTOR" && (x.id == r.id &&
        x.person_id == r.person_id)) := by
      rw [huniq]
      exact List.mem_singleton.mpr rfl
    have h' := List.mem_filter.mp this
    refine List.mem_filter.mpr ⟨h'.1, ?_⟩
    simpa using hrole
  have hexp : ∀ t ∈ charTokens r,
      ((r.id, r.person_id, t) : String × Int × Option String) ∈ charsExploded cs := by
    intro t ht
    unfold charsExploded
    exact List.mem_flatMap.mpr ⟨r, hrmem, List.mem_map.mpr ⟨t, ht, rfl⟩⟩
  have htoks : ∀ t ∈ charTokens r, t ∈ characterEntityTokens cs := by
    intro t ht
    unfold characterEntityTokens
    rw [mem_dedupFirstSeen]
    exact List.mem_map.mpr ⟨(r.id, r.person_id, t), hexp t ht, rfl⟩
  obtain ⟨i, hi, hgi⟩ := assignId_spec (characterEntityTokens cs) (some "Tony Stark")
    (htoks _ (by rw [htok]; simp))
  obtain ⟨j, hj, hgj⟩ := assignId_spec (characterEntityTokens cs) (some "Iron Man")
    (htoks _ (by rw [htok]; simp))
  refine ⟨i + 1, j + 1, ?_, ?_, ?_, ?_⟩
  · simp only [List.map_cons, List.map_nil, hi, hj, hmov, hshow]
  · intro hij
    have : i = j := by omega
    subst this
    rw [hgi] at hgj
    simp at hgj
  · show _ ∈ charactersEntities cs
    unfold charactersEntities
    exact List.mem_map.mpr ⟨(i, some "Tony Stark"),
      List.mk_mem_enum_iff_getElem?.mpr hgi, rfl⟩
  · show _ ∈ charactersEntities cs
    unfold charactersEntities
    exact List.mem_map.mpr ⟨(j, some "Iron Man"),
      List.mk_mem_enum_iff_getElem?.mpr hgj, rfl⟩

/-- C8 witness: the split evaluated on the concrete Iron Man credit. -/
theorem c8_character_split_witness :
    ∃ k1 k2,
      (transform_characters [c8Credit]).2.filter
          (fun b => b.movie_id == some c8Credit.id &&
            b.actor_id == c8Credit.person_id) =
        [{ actor_id := c8Credit.person_id, character_id := some k1,
           movie_id := some c8Credit.id, show_id := none },
         { actor_id := c8Credit.person_id, character_id := some k2,
           movie_id := some c8Credit.id, show_id := none }] ∧
      k1 ≠ k2 ∧
      ({ character_id := k1, character := some "Tony Stark" } : CharacterEntity)
        ∈ (transform_characters [c8Credit]).1 ∧
      ({ character_id := k2, character := some "Iron Man" } : CharacterEntity)
        ∈ (transform_characters [c8Credit]).1 :=
  c8_character_split [c8Credit] c8Credit rfl rfl (by decide) (by decide)

/-! ## Claim C7: denormalized view multiplicity -/

theorem filter_none_eq_nil {α : Type} (l : List α) (q : α → Bool)
    (h : ∀ b ∈ l, q b = false) : l.filter q = [] := by
  rw [filter_eq_of_forall l q false h]
  rfl

theorem mem_expandMatches_pos {α : Type} (M : List α) (h : M ≠ []) (x : Option α)
    (hx : x ∈ expandMatches M) : ∃ y ∈ M, x = some y := by
  cases M with
  | nil => exact absurd rfl h
  | cons a as =>
    simp only [expandMatches, List.mem_map] at hx
    obtain ⟨y, hy, rfl⟩ := hx
    exact ⟨y, hy, rfl⟩

theorem mem_movieViewRows_movie_id (db : ViewDB) (m : MovieRow) :
    ∀ row ∈ movieViewRows db m, row.movie_id = some m.movie_id := by
  intro row hrow
  simp only [movieViewRows, List.mem_flatMap, List.mem_map] at hrow
  obtain ⟨gb, -, g, -, pcb, -, pc, -, dbr, -, d, -, ab, -, a, -, cb, -, c, -, i, -, rfl⟩ := hrow
  rfl

theorem mem_showViewRows_movie_id (db : ViewDB) (s : ShowRow) :
    ∀ row ∈ showViewRows db s, row.movie_id = none := by
  intro row hrow
  simp only [showViewRows, List.mem_flatMap, List.mem_map] at hrow
  obtain ⟨gb, -, g, -, pcb, -, pc, -, dbr, -, d, -, ab, -, a, -, cb, -, c, -, i, -, rfl⟩ := hrow
  rfl

example : True := trivial

theorem movieViewRows_length_six (db : ViewDB) (m0 : MovieRow)
    (hgb3 : (db.genres_bridge.filter
      (fun gb => gb.movie_id == some m0.movie_id)).length = 3)
    (hgle : ∀ gb ∈ db.genres_bridge.filter
        (fun gb => gb.movie_id == some m0.movie_id),
      (db.genres.filter
        (fun g => joinKeyNat (some gb.genre_id) g.genre_id)).length ≤ 1)
    (hpcb : (db.production_countries_bridge.filter
      (fun pcb => pcb.movie_id == some m0.movie_id)).length ≤ 1)
    (hpcle : ∀ pcb ∈ db.production_countries_bridge.filter
        (fun pcb => pcb.movie_id == some m0.movie_id),
      (db.production_countries.filter
        (fun pc => joinKeyNat (some pcb.country_id) pc.country_id)).length ≤ 1)
    (hdbr : (db.directors_bridge.filter
      (fun dbr => dbr.movie_id == some m0.movie_id)).length ≤ 1)
    (hdle : ∀ dbr ∈ db.directors_bridge.filter
        (fun dbr => dbr.movie_id == some m0.movie_id),
      (db.directors.filter
        (fun d => joinKeyInt (some dbr.director_id) d.director_id)).length ≤ 1)
    (hab2 : (db.actors_bridge.filter
      (fun ab => ab.movie_id == some m0.movie_id)).length = 2)
    (hale : ∀ ab ∈ db.actors_bridge.filter
        (fun ab => ab.movie_id == some m0.movie_id),
      (db.actors.filter
        (fun a => joinKeyInt (some ab.actor_id) a.actor_id)).length ≤ 1)
    (hcble : ∀ ab ∈ db.actors_bridge.filter
        (fun ab => ab.movie_id == some m0.movie_id),
      (db.characters_bridge.filter (fun cb => cb.movie_id == some m0.movie_id &&
        joinKeyInt (some ab.actor_id) cb.actor_id)).length ≤ 1)
    (hcle : ∀ cb ∈ db.characters_bridge,
      (db.characters.filter
        (fun c => joinKeyNat (some cb.character_id) c.character_id)).length ≤ 1)
    (hile : (db.imdb_info.filter
      (fun i => i.movie_id == some m0.movie_id)).length ≤ 1) :
    (movieViewRows db m0).length = 6 := by
  unfold movieViewRows
  refine Eq.trans (length_flatMap_const _ _ 2 ?_) ?_
  case refine_2 =>
    rw [length_expandMatches_of_pos _ (by rw [hgb3]; norm_num), hgb3]
  intro gb hgb
  obtain ⟨gbr, hgbr, rfl⟩ := mem_expandMatches_pos _
    (by intro hnil; rw [hnil] at hgb3; simp at hgb3) gb hgb
  refine Eq.trans (length_flatMap_const _ _ 2 ?_) ?_
  case refine_2 =>
    simp only [Option.map_some']
    rw [length_expandMatches_of_le_one _ (hgle gbr hgbr)]
  intro g _
  refine Eq.trans (length_flatMap_const _ _ 2 ?_) ?_
  case refine_2 =>
    rw [length_expandMatches_of_le_one _ hpcb]
  intro pcb hpcb'
  refine Eq.trans (length_flatMap_const _ _ 2 ?_) ?_
  case refine_2 =>
    rcases mem_expandMatches _ _ hpcb' with rfl | ⟨pcbr, hpcbr, rfl⟩
    · show (expandMatches (db.production_countries.filter
        (fun _ => false))).length * 2 = 2
      rw [List.filter_false]
      rfl
    · simp only [Option.map_some']
      rw [length_expandMatches_of_le_one _ (hpcle pcbr hpcbr)]
  intro pc _
  refine Eq.trans (length_flatMap_const _ _ 2 ?_) ?_
  case refine_2 =>
    rw [length_expandMatches_of_le_one _ hdbr]
  intro dbr hdbr'
  refine Eq.trans (length_flatMap_const _ _ 2 ?_) ?_
  case refine_2 =>
    rcases mem_expandMatches _ _ hdbr' with rfl | ⟨dbrr, hdbrr, rfl⟩
    · show (expandMatches (db.directors.filter
        (fun _ => false))).length * 2 = 2
      rw [List.filter_false]
      rfl
    · simp only [Option.map_some']
      rw [length_expandMatches_of_le_one _ (hdle dbrr hdbrr)]
  intro d _
  refine Eq.trans (length_flatMap_const _ _ 1 ?_) ?_
  case refine_2 =>
    rw [length_expandMatches_of_pos _ (by rw [hab2]; norm_num), hab2]
  intro ab hab
  obtain ⟨abr, habr, rfl⟩ := mem_expandMatches_pos _
    (by intro hnil; rw [hnil] at hab2; simp at hab2) ab hab
  refine Eq.trans (length_flatMap_const _ _ 1 ?_) ?_
  case refine_2 =>
    simp only [Option.map_some']
    rw [length_expandMatches_of_le_one _ (hale abr habr)]
  intro a _
  refine Eq.trans (length_flatMap_const _ _ 1 ?_) ?_
  case refine_2 =>
    simp only [Option.map_some']
    rw [length_expandMatches_of_le_one _ (hcble abr habr)]
  intro cb hcb'
  refine Eq.trans (length_flatMap_const _ _ 1 ?_) ?_
  case refine_2 =>
    rcases mem_expandMatches _ _ hcb' with rfl | ⟨cbr, hcbr, rfl⟩
    · show (expandMatches (db.characters.filter
        (fun _ => false))).length * 1 = 1
      rw [List.filter_false]
      rfl
    · simp only [Option.map_some']
      rw [length_expandMatches_of_le_one _
        (hcle cbr (List.mem_filter.mp hcbr).1)]
  intro c _
  rw [List.length_map]
  exact length_expandMatches_of_le_one _ hile

/-- C7: in the denormalized `movies_and_shows_view`, a movie title with
exactly 3 genre links and exactly 2 actor links, at most one country,
director, rating row and at most one character link per actor (and with
at most one entity row per referenced surrogate id), contributes
exactly 6 = 2 × 3 rows — the cross product of the independent
one-to-many left joins. -/
theorem c7_view_multiplicity (db : ViewDB) (t : String) (m0 : MovieRow)
    (hm : db.movies.filter (fun m => m.movie_id == t) = [m0])
    (hgb3 : (db.genres_bridge.filter
      (fun gb => gb.movie_id == some t)).length = 3)
    (hgle : ∀ gb ∈ db.genres_bridge.filter
        (fun gb => gb.movie_id == some t),
      (db.genres.filter
        (fun g => joinKeyNat (some gb.genre_id) g.genre_id)).length ≤ 1)
    (hpcb : (db.production_countries_bridge.filter
      (fun pcb => pcb.movie_id == some t)).length ≤ 1)
    (hpcle : ∀ pcb ∈ db.production_countries_bridge.filter
        (fun pcb => pcb.movie_id == some t),
      (db.production_countries.filter
        (fun pc => joinKeyNat (some pcb.country_id) pc.country_id)).length ≤ 1)
    (hdbr : (db.directors_bridge.filter
      (fun dbr => dbr.movie_id == some t)).length ≤ 1)
    (hdle : ∀ dbr ∈ db.directors_bridge.filter
        (fun dbr => dbr.movie_id == some t),
      (db.directors.filter
        (fun d => joinKeyInt (some dbr.director_id) d.director_id)).length ≤ 1)
    (hab2 : (db.actors_bridge.filter
      (fun ab => ab.movie_id == some t)).length = 2)
    (hale : ∀ ab ∈ db.actors_bridge.filter
        (fun ab => ab.movie_id == some t),
      (db.actors.filter
        (fun a => joinKeyInt (some ab.actor_id) a.actor_id)).length ≤ 1)
    (hcble : ∀ ab ∈ db.actors_bridge.filter
        (fun ab => ab.movie_id == some t),
      (db.characters_bridge.filter (fun cb => cb.movie_id == some t &&
        joinKeyInt (some ab.actor_id) cb.actor_id)).length ≤ 1)
    (hcle : ∀ cb ∈ db.characters_bridge,
      (db.characters.filter
        (fun c => joinKeyNat (some cb.character_id) c.character_id)).length ≤ 1)
    (hile : (db.imdb_info.filter
      (fun i => i.movie_id == some t)).length ≤ 1) :
    ((moviesAndShowsView db).filter
      (fun r => r.movie_id == some t)).length = 6 := by
  have hm0 : m0.movie_id = t := by
    have hmm : m0 ∈ db.movies.filter (fun m => m.movie_id == t) := by
      rw [hm]
      exact List.mem_singleton.mpr rfl
    simpa using (List.mem_filter.mp hmm).2
  subst hm0
  unfold moviesAndShowsView
  rw [List.filter_append]
  have hshow : (db.shows.flatMap (showViewRows db)).filter
      (fun r => r.movie_id == some m0.movie_id) = [] := by
    apply filter_none_eq_nil
    intro row hrow
    obtain ⟨s, hs, hrow⟩ := List.mem_flatMap.mp hrow
    rw [mem_showViewRows_movie_id db s row hrow]
    rfl
  have hmov : (db.movies.flatMap (movieViewRows db)).filter
      (fun r => r.movie_id == some m0.movie_id) =
      (db.movies.filter (fun m => m.movie_id == m0.movie_id)).flatMap
        (movieViewRows db) := by
    apply filter_flatMap_blocks
    intro m _ row hrow
    rw [mem_movieViewRows_movie_id db m row hrow]
    rfl
  rw [hshow, hmov, hm, List.flatMap_singleton, List.append_nil]
  exact movieViewRows_length_six db m0 hgb3 hgle hpcb hpcle hdbr hdle hab2
    hale hcble hcle hile

/-- C7 witness: the multiplicity evaluated on the concrete database
where movie `tm1` has 3 genres, 2 actors, one character per actor and
one rating row. -/
theorem c7_view_multiplicity_witness :
    ((moviesAndShowsView c7DB).filter
      (fun r => r.movie_id == some "tm1")).length = 6 :=
  c7_view_multiplicity c7DB "tm1" c7Movie (by decide) (by decide) (by decide)
    (by decide) (by decide) (by decide) (by decide) (by decide) (by decide)
    (by decide) (by decide) (by decide)

/-- C1 amended witness: the silent-drop behaviour evaluated on the
concrete `"OTHER"`-typed row. -/
theorem c1_amended_witness :
    (∃ ms, transform_movies [c1TitleBad] = Except.ok ms ∧
        ∀ m ∈ ms, ∃ src ∈ [c1TitleBad], src.type = "MOVIE" ∧ m.movie_id = src.id) ∧
    (∃ ss, transform_shows [c1TitleBad] = Except.ok ss ∧
        ∀ s ∈ ss, ∃ src ∈ [c1TitleBad], src.type = "SHOW" ∧ s.show_id = src.id) :=
  c1_amended_unknown_tags_silently_dropped [c1TitleBad]

/-- C9 amended witness: the append semantics evaluated at a concrete
state and request. -/
theorem c9_amended_witness :
    (submit_prediction c9StateA c9Request).2.index = c9StateA.nextIndex ∧
    (submit_prediction c9StateA c9Request).1.nextIndex = c9StateA.nextIndex + 1 ∧
    (submit_prediction c9StateA c9Request).2.timestamp = c9StateA.clock ∧
    (submit_prediction c9StateA c9Request).2.user_id = c9Request.user_id ∧
    (submit_prediction c9StateA c9Request).2.prediction_value =
      c9Request.prediction_value ∧
    (submit_prediction c9StateA c9Request).1.predictions =
      c9StateA.predictions ++ [(submit_prediction c9StateA c9Request).2] ∧
    submit_prediction_response c9StateA c9Request =
      { user_id := c9Request.user_id,
        prediction_value := c9Request.prediction_value } :=
  c9_amended_append_semantics c9StateA c9Request

